import Mathlib

/-!
Shallow embedding of the order-management core of the SistemaMimonb backend.

Source files embedded:
- `app/routes/orders.py`: status vocabulary and normalization, category and
  order status recomputation, the finalization guard, and the mutation
  endpoints (add items, update item, delete item, create/update remessa,
  update order).
- `app/utils/pubsub.py`: the in-process notification hub (`publish`).

Modelling conventions:
- Money and quantities are exact rationals (`ℚ`); Python's `round(x, 2)` is
  modelled by exact half-to-even rounding at two decimals (`pyRound2`), and
  Python's `int(x)` by truncation toward zero (`pyInt`).  All concrete inputs
  used in theorems stay away from representation-dependent ties, so the exact
  model and the floating-point source agree on them.
- Python strings are Lean `String`s; `str.lower()` is modelled ASCII-only
  (`pyLower`), `tok in s` by a substring test (`pyIn`), `s.strip()` by
  `String.trim`.  `None` is modelled by `Option`.
- The SQLAlchemy session is modelled by an explicit record `DB` holding the
  order, item, remessa and per-category status rows; each endpoint is a
  function `DB → Except ApiError DB` (HTTP 404 ↦ `ApiError.notFound`,
  HTTP 409 ↦ `ApiError.conflict`).
-/

namespace Mimonb

/-- ASCII lowercasing of one character. -/
def lowerChar (c : Char) : Char :=
  if 'A' ≤ c && c ≤ 'Z' then Char.ofNat (c.toNat + 32) else c

/-- ASCII lowercasing, modelling Python `str.lower()` on the ASCII inputs the
routes deal in. -/
def pyLower (s : String) : String := ⟨s.data.map lowerChar⟩

/-- ASCII whitespace, the characters Python `str.strip()` removes from the
inputs the routes deal in. -/
def isSpaceChar (c : Char) : Bool :=
  c == ' ' || c == '\t' || c == '\n' || c == '\r'

/-- Python `str.strip()`: drop whitespace from both ends. -/
def pyStrip (s : String) : String :=
  ⟨((s.data.dropWhile isSpaceChar).reverse.dropWhile isSpaceChar).reverse⟩

/-- `startsWithL pat l` is true when `pat` is a leading segment of `l`. -/
def startsWithL : List Char → List Char → Bool
  | [], _ => true
  | _ :: _, [] => false
  | a :: as, b :: bs => a == b && startsWithL as bs

/-- `containsSub pat l` is true when `pat` occurs contiguously inside `l`. -/
def containsSub (pat : List Char) : List Char → Bool
  | [] => pat.isEmpty
  | c :: rest => startsWithL pat (c :: rest) || containsSub pat rest

/-- Python's substring containment `tok in s`. -/
def pyIn (tok s : String) : Bool := containsSub tok.toList s.toList

/-- Floor of a rational. -/
def qfloor (q : ℚ) : ℤ := ⌊q⌋

/-- Python `int(x)`: truncation toward zero. -/
def pyInt (q : ℚ) : ℤ := if 0 ≤ q then qfloor q else - qfloor (-q)

/-- Python `int(x or 1)`: `0` is falsy and becomes `1`; anything else is
truncated toward zero. -/
def pyIntOr1 (q : ℚ) : ℤ := if q = 0 then 1 else pyInt q

/-- Exact round-half-to-even of a rational to an integer, modelling Python's
`round` on exact values. -/
def roundHalfEven (q : ℚ) : ℤ :=
  let f := qfloor q
  let frac := q - (f : ℚ)
  if frac < 1/2 then f
  else if (1 : ℚ)/2 < frac then f + 1
  else if f % 2 = 0 then f else f + 1

/-- Python `round(x, 2)` on exact values. -/
def pyRound2 (q : ℚ) : ℚ := (roundHalfEven (q * 100) : ℚ) / 100

/-- Python `x or default` for optional strings: `None` and `''` are falsy. -/
def orDefault (s : Option String) (d : String) : String :=
  match s with
  | none => d
  | some v => if v = "" then d else v

/-! ### Status vocabulary (`app/routes/orders.py`) -/

/-- Embeds `is_finalized_status` (orders.py:28): lowercase, strip, and compare
against the two finalized values. -/
def is_finalized_status (s : Option String) : Bool :=
  let st := pyStrip (pyLower (orDefault s ""))
  st == "pago" || st == "entregue"

/-- Embeds `map_incoming_status` (orders.py:248): normalize any incoming
status string to one of the canonical stored values, defaulting to
`"pendente"`. -/
def map_incoming_status (s : Option String) : String :=
  match s with
  | none => "pendente"
  | some raw =>
    if raw = "" then "pendente"
    else
      let st := pyLower raw
      if pyIn "pend" st then "pendente"
      else if pyIn "prepar" st || pyIn "preparing" st || pyIn "em_preparo" st then "em_preparo"
      else if pyIn "pront" st || pyIn "ready" st then "pronto"
      else if pyIn "entreg" st || pyIn "deliv" st then "entregue"
      else if pyIn "cancel" st then "cancelado"
      else if pyIn "pag" st || pyIn "paid" st then "pago"
      else "pendente"

/-- Embeds `is_beverage_category` (orders.py:112). -/
def is_beverage_category (raw : Option String) : Bool :=
  let s := pyLower (orDefault raw "")
  pyIn "bebida" s || pyIn "bebidas" s || pyIn "vinho" s || pyIn "vinhos" s ||
  pyIn "drink" s || pyIn "drinks" s || pyIn "refri" s || pyIn "refrigerante" s ||
  pyIn "suco" s || pyIn "água" s || pyIn "agua" s

/-- Embeds `category_key_for_item` (orders.py:125); the argument is the item's
resolved product category (`resolve_categoria_for_item` result, `none` when no
product matches). -/
def category_key_for_item (cat : Option String) : String :=
  if is_beverage_category cat then "bebida" else "pizza"

/-! ### Data model -/

/-- A row of `pedido_itens` (fields used by the embedded endpoints).  The
`categoria` field carries the result of `resolve_categoria_for_item` for the
item: the owning product's category, or `none` when no product matches. -/
structure PedidoItem where
  id : Nat
  pedido_id : Nat
  remessa_id : Option Nat
  status : String
  preco : ℚ
  quantidade : ℚ
  nome : String
  categoria : Option String
deriving Repr, DecidableEq

/-- A row of `pedidos` (fields used by the embedded endpoints). -/
structure Pedido where
  id : Nat
  status : String
  subtotal : ℚ
  adicional_10 : Nat
  valor_total : ℚ
deriving Repr, DecidableEq

/-- A row of `pedido_remessas` (fields used by the embedded endpoints). -/
structure PedidoRemessa where
  id : Nat
  pedido_id : Nat
  status : String
  tipo : String
deriving Repr, DecidableEq

/-- A row of `pedido_categoria_status`. -/
structure CategoriaStatus where
  pedido_id : Nat
  categoria : String
  status : String
deriving Repr, DecidableEq

/-- The relational state the endpoints operate on. -/
structure DB where
  pedidos : List Pedido
  items : List PedidoItem
  remessas : List PedidoRemessa
  cat_status : List CategoriaStatus
deriving Repr, DecidableEq

/-- Error signals surfaced to the HTTP layer: `notFound` is a 404,
`conflict` a 409. -/
inductive ApiError where
  | notFound : ApiError
  | conflict : ApiError
deriving Repr, DecidableEq

/-- The items of one order, as queried by
`db.query(PedidoItem).filter(PedidoItem.pedido_id == order.id)`. -/
def DB.itemsOf (db : DB) (oid : Nat) : List PedidoItem :=
  db.items.filter (fun it => it.pedido_id == oid)

/-- Persist a new status on the order row with the given id. -/
def DB.setOrderStatus (db : DB) (oid : Nat) (st : String) : DB :=
  { db with pedidos := db.pedidos.map (fun o => if o.id == oid then { o with status := st } else o) }

/-! ### Status Recompute Engine (`app/routes/orders.py`) -/

/-- The ready test used by `recompute_order_status_from_items` (orders.py:225):
`'pront' in s or 'ready' in s or 'entregue' in s` on the lowered item status. -/
def item_is_ready (s : String) : Bool :=
  pyIn "pront" s || pyIn "ready" s || pyIn "entregue" s

/-- Embeds `recompute_order_status_from_items` (orders.py:208): derive the
order's status purely from its items' statuses and persist it.  Returns the
updated state together with the status that was applied. -/
def recompute_order_status_from_items (db : DB) (oid : Nat) : DB × String :=
  let items := db.itemsOf oid
  let new_status :=
    if items.isEmpty then "pendente"
    else
      let statuses := items.map (fun it => pyLower it.status)
      let any_ready := statuses.any item_is_ready
      let all_ready := any_ready && statuses.all item_is_ready
      if all_ready then "pronto"
      else if any_ready then "em_preparo"
      else "pendente"
  (db.setOrderStatus oid new_status, new_status)

/-- The per-item ready test of `status_for` (orders.py:185):
`s and ('pront' in s or 'ready' in s)` on a lowered status. -/
def cat_item_ready (s : String) : Bool :=
  !(s == "") && (pyIn "pront" s || pyIn "ready" s)

/-- The per-item preparing test of `status_for` (orders.py:186). -/
def cat_item_preparing (s : String) : Bool :=
  !(s == "") && (pyIn "prepar" s || pyIn "em_preparo" s)

/-- The per-item pending test of `status_for` (orders.py:187). -/
def cat_item_pending (s : String) : Bool :=
  s == "" || pyIn "pend" s

/-- Embeds the inner `status_for` of `compute_and_persist_category_statuses`
(orders.py:174): derive one category's status from the lowered statuses of its
items; `none` when the category has no items. -/
def status_for (items_list : List PedidoItem) : Option String :=
  if items_list.isEmpty then none
  else
    let statuses := items_list.map (fun it => pyLower it.status)
    let all_ready := statuses.all cat_item_ready
    let any_preparing := statuses.any cat_item_preparing
    let any_pending := statuses.any cat_item_pending
    if all_ready then some "pronto"
    else if any_preparing then some "em_preparo"
    else if any_pending then some "pendente"
    else some "pendente"

/-- Embeds `upsert_category_status` (orders.py:131): create or update the
per-category status row of one order. -/
def upsert_category_status (db : DB) (oid : Nat) (key st : String) : DB :=
  if db.cat_status.any (fun r => r.pedido_id == oid && r.categoria == key) then
    { db with cat_status :=
        db.cat_status.map (fun r =>
          if r.pedido_id == oid && r.categoria == key then { r with status := st } else r) }
  else
    { db with cat_status := db.cat_status ++ [⟨oid, key, st⟩] }

/-- Embeds `compute_and_persist_category_statuses` (orders.py:148): bucket the
order's items into the beverage and pizza categories, derive each bucket's
status with `status_for`, and persist; with zero items every category row of
the order is deleted instead. -/
def compute_and_persist_category_statuses (db : DB) (oid : Nat) : DB :=
  let items := db.itemsOf oid
  if items.isEmpty then
    { db with cat_status := db.cat_status.filter (fun r => !(r.pedido_id == oid)) }
  else
    let beverage_items := items.filter (fun it => is_beverage_category it.categoria)
    let pizza_items := items.filter (fun it => !is_beverage_category it.categoria)
    let db1 :=
      match status_for pizza_items with
      | some st => upsert_category_status db oid "pizza" st
      | none => db
    match status_for beverage_items with
    | some st => upsert_category_status db1 oid "bebida" st
    | none => db1

/-! ### Mutation endpoints (`app/routes/orders.py`) -/

/-- Python `s.endswith(suffix)`. -/
def pyEndsWith (s suffix : String) : Bool :=
  startsWithL suffix.toList.reverse s.toList.reverse

/-- Autoincremented id for a new `pedido_remessas` row. -/
def freshRemessaId (db : DB) : Nat :=
  (db.remessas.map (fun r => r.id)).foldl max 0 + 1

/-- Autoincremented id for a new `pedido_itens` row. -/
def freshItemId (db : DB) : Nat :=
  (db.items.map (fun it => it.id)).foldl max 0 + 1

/-- Payload of `POST /orders/{id}/remessas` (fields the endpoint branches on;
the free-text note and address are plain copies and are omitted). -/
structure RemessaCreatePayload where
  item_ids : List Nat
  status : Option String
  tipo : Option String
deriving Repr, DecidableEq

/-- Embeds `create_remessa_for_order` (orders.py:793): create a remessa row,
reassign the listed items of this order to it, apply the normalized requested
status to every moved item, then recompute the order status and the
per-category statuses.  There is no finalization guard on this endpoint. -/
def create_remessa_for_order (db : DB) (oid : Nat) (p : RemessaCreatePayload) :
    Except ApiError DB :=
  match db.pedidos.find? (fun o => o.id == oid) with
  | none => .error .notFound
  | some _ =>
    let requested_status := orDefault p.status "pendente"
    let remessa_tipo := orDefault p.tipo "local"
    let rid := freshRemessaId db
    let db1 : DB := { db with remessas := db.remessas ++ [⟨rid, oid, requested_status, remessa_tipo⟩] }
    let db2 : DB :=
      if p.item_ids.isEmpty then db1
      else
        { db1 with items := db1.items.map (fun it =>
            if it.pedido_id == oid && p.item_ids.contains it.id then
              { it with remessa_id := some rid, status := map_incoming_status (some requested_status) }
            else it) }
    let db3 := (recompute_order_status_from_items db2 oid).1
    let db4 := compute_and_persist_category_statuses db3 oid
    .ok db4

/-- Payload of `PATCH /orders/{id}/remessas/{rid}` (the status field; note and
address are plain copies and are omitted). -/
structure RemessaUpdatePayload where
  status : Option String
deriving Repr, DecidableEq

/-- Embeds `update_remessa_for_order` (orders.py:967): normalize and store the
new remessa status, propagate it to every item currently in the remessa, then
recompute category statuses and the order status.  There is no finalization
guard on this endpoint. -/
def update_remessa_for_order (db : DB) (oid rid : Nat) (p : RemessaUpdatePayload) :
    Except ApiError DB :=
  match db.pedidos.find? (fun o => o.id == oid) with
  | none => .error .notFound
  | some _ =>
    match db.remessas.find? (fun r => r.id == rid) with
    | none => .error .notFound
    | some rem =>
      if !(rem.pedido_id == oid) then .error .notFound
      else
        let db1 : DB :=
          match p.status with
          | none => db
          | some s =>
            { db with remessas := db.remessas.map (fun r =>
                if r.id == rid then { r with status := map_incoming_status (some s) } else r) }
        let db2 : DB :=
          match p.status with
          | none => db1
          | some s =>
            let item_status := map_incoming_status (some s)
            { db1 with items := db1.items.map (fun it =>
                if it.pedido_id == oid && it.remessa_id == some rid then
                  { it with status := item_status }
                else it) }
        let db3 := compute_and_persist_category_statuses db2 oid
        let db4 := (recompute_order_status_from_items db3 oid).1
        .ok db4

/-- One entry of the `items` list of `POST /orders/{id}/items`.  The `preco`
field carries the catalog price snapshot resolved for the entry by
`resolve_current_price_for_item`, and `categoria` the product category
resolved by `resolve_categoria_for_item`. -/
structure NewItemPayload where
  prod_id : Option Nat
  nome : String
  quantity : ℚ
  preco : ℚ
  remessa_id : Option Nat
  categoria : Option String
deriving Repr, DecidableEq

/-- Embeds `add_items_to_order` (orders.py:1127): rejected with a conflict
when the order is finalized; otherwise append the items (status `"pendente"`,
quantity truncated to an int), extend the stored subtotal by each new line's
`price * int(quantity)`, recompute `valor_total` from the `adicional_10` flag,
then recompute the order status and the per-category statuses. -/
def add_items_to_order (db : DB) (oid : Nat) (payload_items : List NewItemPayload) :
    Except ApiError DB :=
  match db.pedidos.find? (fun o => o.id == oid) with
  | none => .error .notFound
  | some order =>
    if is_finalized_status (some order.status) then .error .conflict
    else
      let base := freshItemId db
      let added : List PedidoItem := payload_items.enum.map (fun pr =>
        { id := base + pr.1, pedido_id := oid, remessa_id := pr.2.remessa_id,
          status := "pendente", preco := pr.2.preco,
          quantidade := ((pyIntOr1 pr.2.quantity : ℤ) : ℚ),
          nome := pr.2.nome, categoria := pr.2.categoria })
      let subtotal := added.foldl (fun acc a => acc + a.preco * ((pyInt a.quantidade : ℤ) : ℚ))
        order.subtotal
      let valor := if order.adicional_10 ≠ 0 then pyRound2 (subtotal * (11/10))
                   else pyRound2 subtotal
      let db1 : DB := { db with
        items := db.items ++ added,
        pedidos := db.pedidos.map (fun o =>
          if o.id == oid then { o with subtotal := subtotal, valor_total := valor } else o) }
      let db2 := (recompute_order_status_from_items db1 oid).1
      let db3 := compute_and_persist_category_statuses db2 oid
      .ok db3

/-- Embeds `delete_order_item` (orders.py:1369): rejected with a conflict when
the order is finalized; otherwise subtract the line total (with the quantity
truncated via `int(q or 1)`) from the stored subtotal, recompute
`valor_total`, delete the item, then recompute the order status and the
per-category statuses. -/
def delete_order_item (db : DB) (oid iid : Nat) : Except ApiError DB :=
  match db.pedidos.find? (fun o => o.id == oid) with
  | none => .error .notFound
  | some order =>
    if is_finalized_status (some order.status) then .error .conflict
    else
      match (db.itemsOf oid).find? (fun it => it.id == iid) with
      | none => .error .notFound
      | some item =>
        let subtotal := order.subtotal - item.preco * ((pyIntOr1 item.quantidade : ℤ) : ℚ)
        let valor := if order.adicional_10 ≠ 0 then pyRound2 (subtotal * (11/10))
                     else pyRound2 subtotal
        let db1 : DB := { db with
          items := db.items.filter (fun it => !(it.pedido_id == oid && it.id == iid)),
          pedidos := db.pedidos.map (fun o =>
            if o.id == oid then { o with subtotal := subtotal, valor_total := valor } else o) }
        let db2 := (recompute_order_status_from_items db1 oid).1
        let db3 := compute_and_persist_category_statuses db2 oid
        .ok db3

/-- Payload of `PATCH /orders/{id}/items/{iid}`. -/
structure ItemUpdatePayload where
  quantity : Option ℚ
  price : Option ℚ
  status : Option String
deriving Repr, DecidableEq

/-- Embeds `update_order_item_quantity` (orders.py:1489): rejected with a
conflict when the order is finalized; a requested status equal to the raw
string `"entregue"` is rejected with a conflict unless the item is currently
`"pronto"` (other spellings are not checked and are stored verbatim);
otherwise apply quantity (truncated), price and status, mark the remessa
`"entregue"` when all its items now are, recompute the order's subtotal and
`valor_total` from its items, and recompute the order status. -/
def update_order_item_quantity (db : DB) (oid iid : Nat) (p : ItemUpdatePayload) :
    Except ApiError DB :=
  match db.pedidos.find? (fun o => o.id == oid) with
  | none => .error .notFound
  | some order =>
    if is_finalized_status (some order.status) then .error .conflict
    else
      match (db.itemsOf oid).find? (fun it => it.id == iid) with
      | none => .error .notFound
      | some item =>
        if p.status == some "entregue" && !(item.status == "pronto") then .error .conflict
        else
          let upd := fun (it : PedidoItem) =>
            let it1 := match p.quantity with
              | some q => { it with quantidade := ((pyInt q : ℤ) : ℚ) }
              | none => it
            let it2 := match p.price with
              | some pr => { it1 with preco := pr }
              | none => it1
            match p.status with
            | some s => { it2 with status := s }
            | none => it2
          let items1 := db.items.map (fun it =>
            if it.pedido_id == oid && it.id == iid then upd it else it)
          let newItem := upd item
          let remessas1 :=
            match p.status, newItem.remessa_id with
            | some _, some rid =>
              if newItem.status == "entregue" && rid ≠ 0 then
                let itens_remessa := items1.filter (fun it => it.remessa_id == some rid)
                if !itens_remessa.isEmpty && itens_remessa.all (fun it => it.status == "entregue") then
                  db.remessas.map (fun r =>
                    if r.id == rid then { r with status := "entregue" } else r)
                else db.remessas
              else db.remessas
            | _, _ => db.remessas
          let subtotal := (items1.filter (fun it => it.pedido_id == oid)).foldl
            (fun acc it => acc + it.preco * ((pyIntOr1 it.quantidade : ℤ) : ℚ)) 0
          let valor := if order.adicional_10 ≠ 0 then pyRound2 (subtotal * (11/10))
                       else pyRound2 subtotal
          let db1 : DB :=
            { db with
              items := items1
              remessas := remessas1
              pedidos := db.pedidos.map (fun o =>
                if o.id == oid then { o with subtotal := subtotal, valor_total := valor } else o) }
          let db2 := (recompute_order_status_from_items db1 oid).1
          .ok db2

/-- Payload of `PATCH /orders/{id}`. -/
structure OrderUpdatePayload where
  status : Option String
  adicional_10 : Option Bool
deriving Repr, DecidableEq

/-- The `adicional_10` toggle block of `update_order` (orders.py:1685 and
orders.py:1705, two textually identical blocks).  On a finalized order the
409 is raised inside `try: ... except Exception: pass`, so it is swallowed:
the flag stays unchanged and no conflict reaches the caller. -/
def applyAdicional (p : OrderUpdatePayload) (o : Pedido) : Pedido :=
  match p.adicional_10 with
  | none => o
  | some b =>
    if is_finalized_status (some o.status) then o
    else
      let val : Nat := if b then 1 else 0
      let subtotal := o.subtotal
      { o with adicional_10 := val,
               valor_total := if val ≠ 0 then pyRound2 (subtotal * (11/10))
                              else pyRound2 subtotal }

/-- Embeds `update_order` (orders.py:1645).  The status block special-cases
payment spellings, maps other inputs through `map_incoming_status`, and on a
finalized order raises a 409 that the surrounding
`try: ... except Exception: pass` swallows (status is left unchanged, the
call still succeeds).  Both `adicional_10` blocks then run, and finally, when
the incoming status maps to a finalized value, subtotal and `valor_total` are
recomputed from the current items (quantities truncated via `int(q or 1)`)
and frozen. -/
def update_order (db : DB) (oid : Nat) (p : OrderUpdatePayload) : Except ApiError DB :=
  match db.pedidos.find? (fun o => o.id == oid) with
  | none => .error .notFound
  | some order =>
    let order1 :=
      match p.status with
      | none => order
      | some sRaw =>
        let st_raw := pyLower sRaw
        let mapped :=
          if pyStrip st_raw == "paid" || pyStrip st_raw == "pago" || pyIn " pago" st_raw
             || pyEndsWith st_raw " pago" then "pago"
          else map_incoming_status (some sRaw)
        if is_finalized_status (some order.status) && !(mapped == order.status) then order
        else { order with status := mapped }
    let order2 := if p.status.isSome then applyAdicional p order1 else order1
    let order3 := applyAdicional p order2
    let order4 :=
      match p.status with
      | none => order3
      | some sRaw =>
        if is_finalized_status (some (map_incoming_status (some sRaw))) then
          let subtotal := (db.itemsOf oid).foldl
            (fun acc it => acc + it.preco * ((pyIntOr1 it.quantidade : ℤ) : ℚ)) 0
          { order3 with
            subtotal := pyRound2 subtotal,
            valor_total := if order3.adicional_10 ≠ 0 then pyRound2 (subtotal * (11/10))
                           else pyRound2 subtotal }
        else order3
    .ok { db with pedidos := db.pedidos.map (fun o => if o.id == oid then order4 else o) }

/-! ### Notification hub (`app/utils/pubsub.py`) -/

/-- The shape of a published event (category, action, order id). -/
structure Event where
  etype : String
  action : String
  order_id : Nat
deriving Repr, DecidableEq

/-- A registered observer.  `failing` models delivery raising an exception
(a dead queue or a disconnected WebSocket). -/
structure Observer where
  id : Nat
  failing : Bool
deriving Repr, DecidableEq

/-- The hub's two registries: `_subscribers` (queue-based, SSE) and
`_websockets`. -/
structure Hub where
  subscribers : List Observer
  websockets : List Observer
deriving Repr, DecidableEq

/-- Embeds `publish` (pubsub.py:37): deliver the event to every queue
subscriber (failures swallowed, the queue stays registered) and to every
WebSocket (failures remove that socket from the registry).  Returns the new
registries and the successful deliveries `(observer id, event)`; the function
is total — publish never propagates an error to its caller, and nothing is
persisted anywhere. -/
def publish (h : Hub) (e : Event) : Hub × List (Nat × Event) :=
  let qDeliv := (h.subscribers.filter (fun o => !o.failing)).map (fun o => (o.id, e))
  let wsDeliv := (h.websockets.filter (fun o => !o.failing)).map (fun o => (o.id, e))
  ({ subscribers := h.subscribers,
     websockets := h.websockets.filter (fun o => !o.failing) },
   qDeliv ++ wsDeliv)

/-! ### Derived notions and concrete states used in the verification -/

/-- The total/surcharge invariant stated by the design: `valor_total` is
`round(subtotal * 1.1, 2)` when the `adicional_10` flag is set and
`round(subtotal, 2)` otherwise. -/
def total_invariant (o : Pedido) : Prop :=
  o.valor_total = if o.adicional_10 ≠ 0 then pyRound2 (o.subtotal * (11/10))
                  else pyRound2 o.subtotal

/-- A finalized (paid) order holding one still-pending item. -/
def dbC1 : DB :=
  ⟨[⟨1, "pago", 30, 0, 30⟩], [⟨10, 1, none, "pendente", 30, 1, "Pizza G", none⟩], [], []⟩

/-- A paid order holding one pending item (for the recompute engine). -/
def dbC2 : DB :=
  ⟨[⟨1, "pago", 30, 0, 30⟩], [⟨11, 1, none, "pendente", 30, 1, "Pizza G", none⟩], [], []⟩

/-- An order whose single item has already been delivered. -/
def dbC3 : DB :=
  ⟨[⟨1, "pendente", 30, 0, 30⟩], [⟨12, 1, none, "entregue", 30, 1, "Pizza G", none⟩], [], []⟩

/-- A single all-ready item list (category characterization at work). -/
def itemsC3w : List PedidoItem := [⟨13, 1, none, "pronto", 2, 1, "Suco", some "bebidas"⟩]

/-- An order with one half-portion item (quantity 1/2 at price 30). -/
def dbC4 : DB :=
  ⟨[⟨1, "pendente", 15, 0, 15⟩], [⟨14, 1, none, "pendente", 30, 1/2, "Meia pizza", none⟩], [], []⟩

/-- An order with the surcharge flag set whose single item's price has four
decimal places, so rounding the subtotal and rounding the total interact. -/
def dbC5 : DB :=
  ⟨[⟨1, "pendente", 1048/10000, 1, 0⟩],
   [⟨15, 1, none, "pendente", 1048/10000, 1, "Item", none⟩], [], []⟩

/-- A plain order with no items (total invariant witness state). -/
def dbC5w : DB := ⟨[⟨1, "pendente", 10, 0, 10⟩], [], [], []⟩

/-- The state produced by adding an empty item list to `dbC5w`. -/
def dbC5w' : DB := ⟨[⟨1, "pendente", 10, 0, 10⟩], [], [], []⟩

/-- The order row of `dbC5w'`. -/
def oC5w : Pedido := ⟨1, "pendente", 10, 0, 10⟩

/-- An order with one pending item, used for the shipment-move scenario. -/
def dbC6w : DB :=
  ⟨[⟨2, "pendente", 5, 0, 5⟩], [⟨20, 2, none, "pendente", 5, 1, "Pizza M", none⟩], [], []⟩

/-- The state produced by moving item 20 of `dbC6w` into a new remessa
requested as `"pronto"`. -/
def dbC6w' : DB :=
  ⟨[⟨2, "pronto", 5, 0, 5⟩], [⟨20, 2, some 1, "pronto", 5, 1, "Pizza M", none⟩],
   [⟨1, 2, "pronto", "local"⟩], [⟨2, "pizza", "pronto"⟩]⟩

/-- An order with one pending item (delivered-transition scenarios). -/
def dbC8 : DB :=
  ⟨[⟨1, "pendente", 30, 0, 30⟩], [⟨10, 1, none, "pendente", 30, 1, "Pizza G", none⟩], [], []⟩

/-- The state produced by requesting status `"delivered"` on the item of
`dbC8`: the raw spelling is stored verbatim with no conflict. -/
def dbC8' : DB :=
  ⟨[⟨1, "pendente", 30, 0, 30⟩], [⟨10, 1, none, "delivered", 30, 1, "Pizza G", none⟩], [], []⟩

/-- A hub whose only observer is a queue subscriber whose delivery fails. -/
def hubC9 : Hub := ⟨[⟨7, true⟩], []⟩

/-- A hub with no observers at all. -/
def hubEmpty : Hub := ⟨[], []⟩

/-- A sample event. -/
def evC9 : Event := ⟨"order_item", "added", 1⟩

/-- A state whose category rows are already within the closed key set. -/
def dbC10w : DB := ⟨[], [], [], [⟨1, "pizza", "pendente"⟩]⟩

/-! ### Supporting lemmas -/

theorem filter_map_comm {α : Type} (l : List α) (f : α → α) (q : α → Bool)
    (hpres : ∀ x, q (f x) = q x) : (l.map f).filter q = (l.filter q).map f := by
  induction l with
  | nil => rfl
  | cons a t ih =>
    simp only [List.map_cons, List.filter_cons, hpres a]
    cases hqa : q a <;> simp [ih]

theorem find_map_comm {α : Type} (l : List α) (f : α → α) (q : α → Bool)
    (hpres : ∀ x, q (f x) = q x) : (l.map f).find? q = (l.find? q).map f := by
  induction l with
  | nil => rfl
  | cons a t ih =>
    simp only [List.map_cons, List.find?, hpres a]
    cases hqa : q a <;> simp [ih]

theorem upsert_preserves (db : DB) (oid : Nat) (k st : String) :
    (upsert_category_status db oid k st).pedidos = db.pedidos ∧
    (upsert_category_status db oid k st).items = db.items := by
  unfold upsert_category_status
  split <;> exact ⟨rfl, rfl⟩

theorem cps_preserves (db : DB) (oid : Nat) :
    (compute_and_persist_category_statuses db oid).pedidos = db.pedidos ∧
    (compute_and_persist_category_statuses db oid).items = db.items := by
  unfold compute_and_persist_category_statuses
  refine ⟨?_, ?_⟩ <;>
  · dsimp only
    split
    · rfl
    · split <;> split <;>
        simp [(upsert_preserves _ _ _ _).1, (upsert_preserves _ _ _ _).2]

/-! ### Claim theorems -/

/-- C1: the finalization guard is bypassed by the create-remessa endpoint.
On an order whose status is the finalized value `"pago"`, creating a remessa
with `item_ids` succeeds (no conflict is raised), reassigns the item into the
new remessa, rewrites the item's status to `"pronto"` and even rewrites the
finalized order's own status — contradicting the claim that every
item/shipment mutation on a finalized order is rejected and leaves state
unchanged. -/
theorem create_remessa_bypasses_finalization_guard :
    is_finalized_status (some "pago") = true ∧
    (create_remessa_for_order dbC1 1 ⟨[10], some "pronto", none⟩).toOption.map
        (fun d => (d.items.map (fun it => (it.status, it.remessa_id)),
                   d.pedidos.map Pedido.status))
      = some ([("pronto", some 1)], ["pronto"]) := by
  constructor
  · decide
  · decide

/-- C2: the order-status recompute does not protect a paid order.  On an
order whose status is `"pago"` with one `"pendente"` item,
`recompute_order_status_from_items` overwrites the status with `"pendente"` —
item-status recomputation does silently revert a paid order, contradicting
the claim. -/
theorem recompute_overrides_paid_status :
    dbC2.pedidos.map Pedido.status = ["pago"] ∧
    (recompute_order_status_from_items dbC2 1).2 = "pendente" ∧
    (recompute_order_status_from_items dbC2 1).1.pedidos.map Pedido.status = ["pendente"] := by
  refine ⟨by decide, by decide, by decide⟩

/-- C3 counterexample: a category whose items are all delivered
(`"entregue"`) is not computed as `"pronto"`: the persisted row is
`"pendente"`, because the category ready test only looks for the substrings
`'pront'`/`'ready'` and treats `'entregue'` as neither ready nor pending nor
preparing. -/
theorem category_status_all_entregue_is_pendente :
    (compute_and_persist_category_statuses dbC3 1).cat_status
      = [⟨1, "pizza", "pendente"⟩] := by
  decide

/-- C3 (amended): for every non-empty set of items sharing one category key,
the category-status recompute yields `"pronto"` exactly when every item's
lowered status passes the ready test (non-empty and containing `'pront'` or
`'ready'` — a status of `"entregue"` does not count as ready), yields
`"em_preparo"` when not all items are ready and at least one passes the
preparing test, and `"pendente"` otherwise; a category with zero items yields
no record, and an order with zero items has all of its category rows
deleted. -/
theorem category_status_characterization (items : List PedidoItem)
    (hne : items ≠ []) :
    (status_for items = some "pronto" ↔
      (items.map (fun it => pyLower it.status)).all cat_item_ready = true) ∧
    ((items.map (fun it => pyLower it.status)).all cat_item_ready = false →
      (items.map (fun it => pyLower it.status)).any cat_item_preparing = true →
      status_for items = some "em_preparo") ∧
    ((items.map (fun it => pyLower it.status)).all cat_item_ready = false →
      (items.map (fun it => pyLower it.status)).any cat_item_preparing = false →
      status_for items = some "pendente") ∧
    status_for [] = none ∧
    (∀ db oid, DB.itemsOf db oid = [] →
      (compute_and_persist_category_statuses db oid).cat_status.filter
        (fun r => r.pedido_id == oid) = []) := by
  have hie : items.isEmpty = false := by
    cases items with
    | nil => exact absurd rfl hne
    | cons a t => rfl
  refine ⟨?_, ?_, ?_, rfl, ?_⟩
  · simp only [status_for, hie, Bool.false_eq_true, if_false]
    cases hA : (items.map fun it => pyLower it.status).all cat_item_ready with
    | true => simp [hA]
    | false =>
      cases hP : (items.map fun it => pyLower it.status).any cat_item_preparing <;>
        cases hPd : (items.map fun it => pyLower it.status).any cat_item_pending <;>
          simp [hA, hP, hPd]
  · intro hA hP
    simp [status_for, hie, hA, hP]
  · intro hA hP
    cases hPd : (items.map fun it => pyLower it.status).any cat_item_pending <;>
      simp [status_for, hie, hA, hP, hPd]
  · intro db oid h0
    unfold compute_and_persist_category_statuses
    simp only [h0]
    simp [List.filter_filter]

/-- C3 witness: the characterization applied to a concrete one-item category
whose item is ready. -/
theorem category_status_characterization_witness :
    status_for itemsC3w = some "pronto" := by
  have h := category_status_characterization itemsC3w (by decide)
  exact h.1.mpr (by decide)

/-- C4: the finalize-freeze of `update_order` truncates quantities with
`int(...)`, so a half portion (quantity 1/2, price 30, line total 15)
contributes `30 * int(0.5) = 0`: setting the order's status to `"pago"`
freezes subtotal and `valor_total` at 0 instead of 15 — the frozen subtotal
is not the sum of `price * quantity` over the items. -/
theorem finalize_truncates_fractional_quantities :
    dbC4.items.map (fun it => it.preco * it.quantidade) = [15] ∧
    (update_order dbC4 1 ⟨some "pago", none⟩).toOption.map
        (fun d => d.pedidos.map (fun o => (o.status, o.subtotal, o.valor_total)))
      = some [("pago", 0, 0)] := by
  constructor
  · norm_num [dbC4]
  · have e1 : map_incoming_status (some "pago") = "pago" := by decide
    have e2 : is_finalized_status (some "pendente") = false := by decide
    have e3 : is_finalized_status (some "pago") = true := by decide
    have e4 : pyStrip (pyLower "pago") = "pago" := by decide
    have e5 : pyIntOr1 (1/2 : ℚ) = 0 := by norm_num [pyIntOr1, pyInt, qfloor]
    simp only [update_order, applyAdicional, DB.itemsOf, e1, e2, e3, e4, e5, List.find?,
      List.filter, List.foldl, List.map, Option.map, Except.toOption]
    norm_num [pyRound2, roundHalfEven, qfloor, e2]

/-- C5 counterexample: after `update_order` transitions `dbC5` (surcharge
flag set, single line of 0.1048) into `"pago"`, the stored subtotal is the
rounded `0.10` while `valor_total` is `round(0.1048 * 1.1, 2) = 0.12`,
which differs from `round(subtotal * 1.1, 2) = 0.11` — the claimed invariant
does not hold immediately after this recompute. -/
theorem total_invariant_breaks_on_finalize_freeze :
    (update_order dbC5 1 ⟨some "pago", none⟩).toOption.map
        (fun d => d.pedidos.map (fun o => (o.adicional_10, o.subtotal, o.valor_total)))
      = some [(1, 1/10, 3/25)] ∧
    pyRound2 ((1/10 : ℚ) * (11/10)) = 11/100 ∧
    (3/25 : ℚ) ≠ 11/100 := by
  refine ⟨?_, by norm_num [pyRound2, roundHalfEven, qfloor], by norm_num⟩
  have e1 : map_incoming_status (some "pago") = "pago" := by decide
  have e2 : is_finalized_status (some "pendente") = false := by decide
  have e3 : is_finalized_status (some "pago") = true := by decide
  have e4 : pyStrip (pyLower "pago") = "pago" := by decide
  have e5 : pyIntOr1 (1 : ℚ) = 1 := by norm_num [pyIntOr1, pyInt, qfloor]
  simp only [update_order, applyAdicional, DB.itemsOf, e1, e2, e3, e4, e5, List.find?,
    List.filter, List.foldl, List.map, Option.map, Except.toOption]
  norm_num [pyRound2, roundHalfEven, qfloor, e2]

theorem add_items_total_invariant (db : DB) (oid : Nat) (pitems : List NewItemPayload)
    (db' : DB) (h : add_items_to_order db oid pitems = .ok db') (o' : Pedido)
    (hfind : db'.pedidos.find? (fun o => o.id == oid) = some o') :
    total_invariant o' := by
  unfold add_items_to_order at h
  split at h
  · exact absurd h (by simp)
  case h_2 order heq =>
    split at h
    · exact absurd h (by simp)
    · simp only [Except.ok.injEq] at h
      subst h
      rw [(cps_preserves _ _).1] at hfind
      simp only [recompute_order_status_from_items, DB.setOrderStatus] at hfind
      rw [find_map_comm _ _ _ (by intro x; by_cases hx : x.id == oid <;> simp [hx])] at hfind
      rw [find_map_comm _ _ _ (by intro x; by_cases hx : x.id == oid <;> simp [hx])] at hfind
      rw [heq] at hfind
      have hq : (order.id == oid) = true := by
        have h2 := List.find?_some heq
        simpa using h2
      simp only [Option.map_some', hq, if_true] at hfind
      cases hfind
      simp [total_invariant]

theorem delete_item_total_invariant (db : DB) (oid iid : Nat)
    (db' : DB) (h : delete_order_item db oid iid = .ok db') (o' : Pedido)
    (hfind : db'.pedidos.find? (fun o => o.id == oid) = some o') :
    total_invariant o' := by
  unfold delete_order_item at h
  split at h
  · exact absurd h (by simp)
  case h_2 order heq =>
    split at h
    · exact absurd h (by simp)
    · split at h
      · exact absurd h (by simp)
      · simp only [Except.ok.injEq] at h
        subst h
        rw [(cps_preserves _ _).1] at hfind
        simp only [recompute_order_status_from_items, DB.setOrderStatus] at hfind
        rw [find_map_comm _ _ _ (by intro x; by_cases hx : x.id == oid <;> simp [hx])] at hfind
        rw [find_map_comm _ _ _ (by intro x; by_cases hx : x.id == oid <;> simp [hx])] at hfind
        rw [heq] at hfind
        have hq : (order.id == oid) = true := by
          have h2 := List.find?_some heq
          simpa using h2
        simp only [Option.map_some', hq, if_true] at hfind
        cases hfind
        simp [total_invariant]

theorem update_item_total_invariant (db : DB) (oid iid : Nat) (p : ItemUpdatePayload)
    (db' : DB) (h : update_order_item_quantity db oid iid p = .ok db') (o' : Pedido)
    (hfind : db'.pedidos.find? (fun o => o.id == oid) = some o') :
    total_invariant o' := by
  unfold update_order_item_quantity at h
  split at h
  · exact absurd h (by simp)
  case h_2 order heq =>
    split at h
    · exact absurd h (by simp)
    · split at h
      · exact absurd h (by simp)
      · split at h
        · exact absurd h (by simp)
        · simp only [Except.ok.injEq] at h
          subst h
          simp only [recompute_order_status_from_items, DB.setOrderStatus] at hfind
          rw [find_map_comm _ _ _ (by intro x; by_cases hx : x.id == oid <;> simp [hx])] at hfind
          rw [find_map_comm _ _ _ (by intro x; by_cases hx : x.id == oid <;> simp [hx])] at hfind
          rw [heq] at hfind
          have hq : (order.id == oid) = true := by
            have h2 := List.find?_some heq
            simpa using h2
          simp only [Option.map_some', hq, if_true] at hfind
          cases hfind
          simp [total_invariant]

theorem update_order_adicional_total_invariant (db : DB) (oid : Nat) (b : Bool)
    (db' : DB) (h : update_order db oid ⟨none, some b⟩ = .ok db') (o0 : Pedido)
    (ho : db.pedidos.find? (fun o => o.id == oid) = some o0)
    (hfin : is_finalized_status (some o0.status) = false) (o' : Pedido)
    (hfind : db'.pedidos.find? (fun o => o.id == oid) = some o') :
    total_invariant o' := by
  unfold update_order at h
  split at h
  · exact absurd h (by simp)
  case h_2 order heq =>
    have hoo : order = o0 := by
      rw [heq] at ho
      exact Option.some.injEq _ _ ▸ ho.symm ▸ rfl
    simp only [Except.ok.injEq] at h
    subst h
    have hq : (order.id == oid) = true := by
      have h2 := List.find?_some heq
      simpa using h2
    simp only at hfind
    rw [find_map_comm _ _ _ ?hpres] at hfind
    case hpres =>
      intro x
      by_cases hx : x.id == oid <;> simp [hx, applyAdicional]
      · split <;> simp_all
    rw [heq] at hfind
    simp only [Option.map_some', hq, if_true] at hfind
    cases hfind
    subst hoo
    cases b <;> simp [applyAdicional, hfin, total_invariant]

/-- C5 (amended): the total/surcharge invariant —
`valor_total = round(subtotal * 1.1, 2)` when `adicional_10` is set, else
`round(subtotal, 2)` — holds for the mutated order immediately after the
recomputes of add-items, update-item, delete-item and of the `adicional_10`
toggle of update-order on a non-finalized order.  (It does not hold after the
finalize transition of update-order, where `valor_total` is rounded from the
unrounded item sum while `subtotal` stores the rounded sum.) -/
theorem total_invariant_after_recompute :
    (∀ db oid pitems db' o', add_items_to_order db oid pitems = .ok db' →
       db'.pedidos.find? (fun o => o.id == oid) = some o' → total_invariant o') ∧
    (∀ db oid iid p db' o', update_order_item_quantity db oid iid p = .ok db' →
       db'.pedidos.find? (fun o => o.id == oid) = some o' → total_invariant o') ∧
    (∀ db oid iid db' o', delete_order_item db oid iid = .ok db' →
       db'.pedidos.find? (fun o => o.id == oid) = some o' → total_invariant o') ∧
    (∀ db oid b db' o0 o', update_order db oid ⟨none, some b⟩ = .ok db' →
       db.pedidos.find? (fun o => o.id == oid) = some o0 →
       is_finalized_status (some o0.status) = false →
       db'.pedidos.find? (fun o => o.id == oid) = some o' → total_invariant o') := by
  refine ⟨?_, ?_, ?_, ?_⟩
  · intro db oid pitems db' o' h hfind
    exact add_items_total_invariant db oid pitems db' h o' hfind
  · intro db oid iid p db' o' h hfind
    exact update_item_total_invariant db oid iid p db' h o' hfind
  · intro db oid iid db' o' h hfind
    exact delete_item_total_invariant db oid iid db' h o' hfind
  · intro db oid b db' o0 o' h ho hfin hfind
    exact update_order_adicional_total_invariant db oid b db' h o0 ho hfin o' hfind

/-- C5 witness: the invariant established by a concrete add-items call. -/
theorem total_invariant_after_recompute_witness : total_invariant oC5w := by
  have hok : add_items_to_order dbC5w 1 [] = .ok dbC5w' := by
    have e2 : is_finalized_status (some "pendente") = false := by decide
    simp only [add_items_to_order, freshItemId, dbC5w, dbC5w', List.find?, List.map,
      List.foldl, List.enum, recompute_order_status_from_items, DB.setOrderStatus,
      DB.itemsOf, List.filter, compute_and_persist_category_statuses, e2]
    norm_num [pyRound2, roundHalfEven, qfloor, e2]
  have hfind : dbC5w'.pedidos.find? (fun o => o.id == 1) = some oC5w := by decide
  exact (total_invariant_after_recompute).1 dbC5w 1 [] dbC5w' oC5w hok hfind


/-! C6 support: items of other orders are untouched by an item-updating map,
and an order whose items are all `"pronto"` recomputes to `"pronto"`. -/

theorem filter_not_map_id {α : Type} (l : List α) (f : α → α) (q : α → Bool)
    (hpres : ∀ x, q (f x) = q x) (hid : ∀ x, q x = false → f x = x) :
    (l.map f).filter (fun x => !(q x)) = l.filter (fun x => !(q x)) := by
  induction l with
  | nil => rfl
  | cons a t ih =>
    simp only [List.map_cons, List.filter_cons, hpres a]
    cases hqa : q a with
    | true => simp [ih]
    | false => simp [hid a hqa, ih]

theorem recompute_first_eq (db : DB) (oid : Nat) :
    (recompute_order_status_from_items db oid).1
      = db.setOrderStatus oid (recompute_order_status_from_items db oid).2 := rfl

theorem recompute_when_all_pronto (db : DB) (oid : Nat)
    (hne : db.itemsOf oid ≠ [])
    (hall : ∀ it ∈ db.itemsOf oid, pyLower it.status = "pronto") :
    (recompute_order_status_from_items db oid).2 = "pronto" ∧
    (∀ o ∈ (recompute_order_status_from_items db oid).1.pedidos, o.id = oid →
       o.status = "pronto") := by
  have hie : (db.itemsOf oid).isEmpty = false := by
    cases hl : db.itemsOf oid with
    | nil => exact absurd hl hne
    | cons a t => rfl
  have hstat : ∀ s ∈ (db.itemsOf oid).map (fun it => pyLower it.status),
      item_is_ready s = true := by
    intro s hs
    obtain ⟨it, hit, rfl⟩ := List.mem_map.mp hs
    rw [hall it hit]
    decide
  have hallb : ((db.itemsOf oid).map (fun it => pyLower it.status)).all item_is_ready = true :=
    List.all_eq_true.mpr hstat
  have hanyb : ((db.itemsOf oid).map (fun it => pyLower it.status)).any item_is_ready = true := by
    rw [List.any_eq_true]
    cases hl : db.itemsOf oid with
    | nil => exact absurd hl hne
    | cons a t =>
      refine ⟨pyLower a.status, ?_, ?_⟩
      · exact List.mem_map_of_mem _ (List.mem_cons_self a t)
      · rw [hall a (by rw [hl]; exact List.mem_cons_self a t)]; decide
  have hns : (recompute_order_status_from_items db oid).2 = "pronto" := by
    simp only [recompute_order_status_from_items, hie, Bool.false_eq_true, if_false,
      hallb, hanyb, Bool.and_self, if_true]
  refine ⟨hns, ?_⟩
  intro o hmem hid
  rw [recompute_first_eq, hns] at hmem
  simp only [DB.setOrderStatus] at hmem
  obtain ⟨o0, ho0, rfl⟩ := List.mem_map.mp hmem
  by_cases h0 : (o0.id == oid) = true
  · simp [h0]
  · simp only [h0, if_neg, Bool.false_eq_true, if_false] at hid ⊢
    exact absurd (by simpa using hid) (by simpa using h0)

/-- C6: creating a remessa with `item_ids` reassigns exactly the listed items
that belong to the target order into the fresh remessa (items of other orders
are untouched), sets every moved item's status to the normalization of the
requested status, and recomputes: when every item of the order is listed and
the requested status is `"pronto"`, every item of the order ends `"pronto"`
in the new remessa and the order's own status recomputes to `"pronto"`. -/
theorem move_items_to_new_remessa (db : DB) (oid : Nat) (p : RemessaCreatePayload)
    (db' : DB) (hok : create_remessa_for_order db oid p = .ok db')
    (hreq : p.status = some "pronto")
    (hall : ∀ it ∈ db.itemsOf oid, p.item_ids.contains it.id = true)
    (hne : db.itemsOf oid ≠ []) :
    (∀ it ∈ db'.items, it.pedido_id = oid →
       it.status = "pronto" ∧ it.remessa_id = some (freshRemessaId db)) ∧
    (db'.items.filter (fun it => !(it.pedido_id == oid))
       = db.items.filter (fun it => !(it.pedido_id == oid))) ∧
    (∀ o ∈ db'.pedidos, o.id = oid → o.status = "pronto") := by
  have hids : p.item_ids.isEmpty = false := by
    obtain ⟨it0, hit0⟩ := List.exists_mem_of_ne_nil _ hne
    have hc := hall it0 hit0
    cases hpi : p.item_ids with
    | nil => rw [hpi] at hc; simp at hc
    | cons a t => rfl
  have e6 : orDefault (some "pronto") "pendente" = "pronto" := by decide
  have e7 : map_incoming_status (some "pronto") = "pronto" := by decide
  have hpres : ∀ x : PedidoItem,
      ((if (x.pedido_id == oid && p.item_ids.contains x.id) = true then
          ({ x with remessa_id := some (freshRemessaId db), status := "pronto" } : PedidoItem)
        else x).pedido_id == oid) = (x.pedido_id == oid) := by
    intro x
    by_cases hc : (x.pedido_id == oid && p.item_ids.contains x.id) = true
    · rw [if_pos hc]
    · rw [if_neg hc]
  have hupd : ∀ x ∈ db.itemsOf oid,
      (if (x.pedido_id == oid && p.item_ids.contains x.id) = true then
          ({ x with remessa_id := some (freshRemessaId db), status := "pronto" } : PedidoItem)
        else x)
        = { x with remessa_id := some (freshRemessaId db), status := "pronto" } := by
    intro x hx
    have hxq : (x.pedido_id == oid) = true := by
      unfold DB.itemsOf at hx
      exact (List.mem_filter.mp hx).2
    have hcont := hall x hx
    have hc : (x.pedido_id == oid && p.item_ids.contains x.id) = true := by
      rw [hxq, hcont]; rfl
    rw [if_pos hc]
  unfold create_remessa_for_order at hok
  split at hok
  · exact absurd hok (by simp)
  case h_2 order heq =>
    rw [hreq] at hok
    simp only [e6, e7, hids, Bool.false_eq_true, if_false, Except.ok.injEq] at hok
    subst hok
    refine ⟨?_, ?_, ?_⟩
    · intro it hmem hpid
      rw [(cps_preserves _ _).2] at hmem
      obtain ⟨x, hx, rfl⟩ := List.mem_map.mp hmem
      have hxq : (x.pedido_id == oid) = true := by
        have := hpres x
        rw [this.symm]
        exact beq_iff_eq.mpr hpid
      have hxin : x ∈ db.itemsOf oid := by
        unfold DB.itemsOf
        exact List.mem_filter.mpr ⟨hx, hxq⟩
      rw [hupd x hxin]
      exact ⟨rfl, rfl⟩
    · rw [(cps_preserves _ _).2]
      refine filter_not_map_id db.items _ (fun it => it.pedido_id == oid) hpres ?_
      intro x hq
      have hq' : (x.pedido_id == oid) = false := hq
      have hc : ¬((x.pedido_id == oid && p.item_ids.contains x.id) = true) := by
        rw [hq']; simp
      rw [if_neg hc]
    · intro o hmem hid
      rw [(cps_preserves _ _).1] at hmem
      refine (recompute_when_all_pronto _ oid ?_ ?_).2 o hmem hid
      · show (DB.itemsOf _ oid) ≠ []
        unfold DB.itemsOf
        rw [filter_map_comm _ _ _ hpres]
        rw [Ne, List.map_eq_nil_iff]
        exact hne
      · intro it hmem2
        unfold DB.itemsOf at hmem2
        rw [filter_map_comm _ _ _ hpres] at hmem2
        obtain ⟨x, hx, rfl⟩ := List.mem_map.mp hmem2
        rw [hupd x hx]
        exact (by decide : pyLower "pronto" = "pronto")

/-- C6 witness: the theorem applied to a one-item order moved into a
`"pronto"` remessa. -/
theorem move_items_to_new_remessa_witness :
    (∀ it ∈ dbC6w'.items, it.pedido_id = 2 →
       it.status = "pronto" ∧ it.remessa_id = some (freshRemessaId dbC6w)) ∧
    (dbC6w'.items.filter (fun it => !(it.pedido_id == 2))
       = dbC6w.items.filter (fun it => !(it.pedido_id == 2))) ∧
    (∀ o ∈ dbC6w'.pedidos, o.id = 2 → o.status = "pronto") :=
  move_items_to_new_remessa dbC6w 2 ⟨[20], some "pronto", none⟩ dbC6w'
    (by rfl) rfl (by decide) (by decide)

/-- C7: the status normalization is total and canonical: for every input
(including `None` and arbitrary strings) it returns exactly one token of
{pendente, em_preparo, pronto, entregue, cancelado, pago}; empty or
unrecognized input maps to `"pendente"`, and recognized substrings map
deterministically to the corresponding token (examples for each token
included). -/
theorem map_incoming_status_total_and_canonical :
    (∀ s : Option String,
       map_incoming_status s = "pendente" ∨ map_incoming_status s = "em_preparo" ∨
       map_incoming_status s = "pronto" ∨ map_incoming_status s = "entregue" ∨
       map_incoming_status s = "cancelado" ∨ map_incoming_status s = "pago") ∧
    map_incoming_status none = "pendente" ∧
    map_incoming_status (some "") = "pendente" ∧
    map_incoming_status (some "PrEpArInG") = "em_preparo" ∧
    map_incoming_status (some "ready") = "pronto" ∧
    map_incoming_status (some "Delivered") = "entregue" ∧
    map_incoming_status (some "PAID") = "pago" ∧
    map_incoming_status (some "cancelar") = "cancelado" ∧
    map_incoming_status (some "algo desconhecido") = "pendente" := by
  refine ⟨?_, by decide, by decide, by decide, by decide, by decide, by decide, by decide,
    by decide⟩
  intro s
  cases s with
  | none => exact Or.inl rfl
  | some raw =>
    unfold map_incoming_status
    dsimp only
    split_ifs <;> simp

/-- C7 witness: the totality clause applied to a concrete unrecognized
string. -/
theorem map_incoming_status_total_witness :
    map_incoming_status (some "banana") = "pendente" ∨
    map_incoming_status (some "banana") = "em_preparo" ∨
    map_incoming_status (some "banana") = "pronto" ∨
    map_incoming_status (some "banana") = "entregue" ∨
    map_incoming_status (some "banana") = "cancelado" ∨
    map_incoming_status (some "banana") = "pago" :=
  map_incoming_status_total_and_canonical.1 (some "banana")

/-- C8 (amended): a requested item-status equal to the exact string
`"entregue"` on an item that is not currently `"pronto"` (in a non-finalized
order) is rejected with a conflict — a signal distinct from `notFound` — and
the call returns no new state.  (Other spellings of delivered accepted by the
normalization function, such as `"delivered"`, bypass this check and are
stored verbatim; see the counterexample.) -/
theorem entregue_requires_pronto (db : DB) (oid iid : Nat) (p : ItemUpdatePayload)
    (o : Pedido) (it : PedidoItem)
    (ho : db.pedidos.find? (fun x => x.id == oid) = some o)
    (hfin : is_finalized_status (some o.status) = false)
    (hit : (db.itemsOf oid).find? (fun x => x.id == iid) = some it)
    (hst : p.status = some "entregue") (hnr : it.status ≠ "pronto") :
    update_order_item_quantity db oid iid p = .error .conflict ∧
    (ApiError.conflict ≠ ApiError.notFound) := by
  refine ⟨?_, by decide⟩
  unfold update_order_item_quantity
  rw [ho]
  simp only [hfin, Bool.false_eq_true, if_false]
  rw [hit]
  have hc : (p.status == some "entregue" && !(it.status == "pronto")) = true := by
    rw [hst]
    simp [hnr]
  simp only [hc, if_true]

/-- C8 witness: the conflict at a concrete pending item. -/
theorem entregue_requires_pronto_witness :
    update_order_item_quantity dbC8 1 10 ⟨none, none, some "entregue"⟩ = .error .conflict ∧
    (ApiError.conflict ≠ ApiError.notFound) :=
  entregue_requires_pronto dbC8 1 10 ⟨none, none, some "entregue"⟩
    ⟨1, "pendente", 30, 0, 30⟩ ⟨10, 1, none, "pendente", 30, 1, "Pizza G", none⟩
    (by decide) (by decide) (by decide) rfl (by decide)

/-- C9 counterexample: a queue observer whose delivery fails is *not*
deregistered: publishing to a hub whose only subscriber fails delivers
nothing, yet the subscriber registry still contains that observer,
contradicting the claim that a failing observer is deregistered from its
registry. -/
theorem failing_queue_observer_kept_registered :
    (publish hubC9 evC9).2 = [] ∧
    (publish hubC9 evC9).1.subscribers = [⟨7, true⟩] := by
  exact ⟨by decide, by decide⟩

/-- C9 (amended): `publish` is total (never raises to its caller); with zero
registered observers it is a no-op that persists nothing and returns the hub
unchanged with no deliveries; the queue registry is never pruned by publish
(failures there are swallowed), while every failing WebSocket observer is
removed from the websocket registry and the remaining deliveries still
succeed. -/
theorem publish_never_fails_and_prunes_websockets (h : Hub) (e : Event) :
    (h.subscribers = [] → h.websockets = [] → publish h e = (h, [])) ∧
    (publish h e).1.subscribers = h.subscribers ∧
    (publish h e).1.websockets = h.websockets.filter (fun o => !o.failing) := by
  refine ⟨?_, rfl, rfl⟩
  intro h1 h2
  cases h with
  | mk subs wss =>
    simp only at h1 h2
    subst h1
    subst h2
    rfl

/-- C9 witness: publishing with zero observers. -/
theorem publish_never_fails_witness :
    publish hubEmpty evC9 = (hubEmpty, []) :=
  (publish_never_fails_and_prunes_websockets hubEmpty evC9).1 rfl rfl

/-- C10 support: a row present after an upsert either carries the upserted
key or the key of a pre-existing row. -/
theorem upsert_cat_member (db : DB) (oid : Nat) (k st : String) (r : CategoriaStatus)
    (hr : r ∈ (upsert_category_status db oid k st).cat_status) :
    r.categoria = k ∨ ∃ r0 ∈ db.cat_status, r.categoria = r0.categoria := by
  unfold upsert_category_status at hr
  split at hr
  · simp only at hr
    obtain ⟨r0, hr0, hre⟩ := List.mem_map.mp hr
    right
    refine ⟨r0, hr0, ?_⟩
    by_cases hc : (r0.pedido_id == oid && r0.categoria == k) = true
    · rw [if_pos hc] at hre
      rw [← hre]
    · rw [if_neg hc] at hre
      rw [← hre]
  · simp only at hr
    rw [List.mem_append] at hr
    rcases hr with hr | hr
    · right
      exact ⟨r, hr, rfl⟩
    · left
      simp only [List.mem_singleton] at hr
      rw [hr]

/-- C10: every item is bucketed into exactly one of the two keys
`"bebida"`/`"pizza"`; a missing, unresolvable or non-beverage category is
keyed `"pizza"`; and the category-status recompute keeps every persisted
row's key inside {"pizza", "bebida"} whenever it was inside before. -/
theorem category_keys_closed (cat : Option String) (db : DB) (oid : Nat)
    (hkeys : ∀ r ∈ db.cat_status, r.categoria = "pizza" ∨ r.categoria = "bebida") :
    (category_key_for_item cat = "bebida" ∨ category_key_for_item cat = "pizza") ∧
    category_key_for_item none = "pizza" ∧
    (is_beverage_category cat = false → category_key_for_item cat = "pizza") ∧
    (∀ r ∈ (compute_and_persist_category_statuses db oid).cat_status,
       r.categoria = "pizza" ∨ r.categoria = "bebida") := by
  refine ⟨?_, by decide, ?_, ?_⟩
  · unfold category_key_for_item
    split
    · exact Or.inl rfl
    · exact Or.inr rfl
  · intro hb
    unfold category_key_for_item
    rw [hb]
    rfl
  · intro r hr
    unfold compute_and_persist_category_statuses at hr
    dsimp only at hr
    split at hr
    · simp only at hr
      exact hkeys r (List.mem_of_mem_filter hr)
    · split at hr <;> split at hr
      all_goals first
      | exact hkeys r hr
      | (rcases upsert_cat_member _ _ _ _ _ hr with h1 | ⟨r0, hr0, he⟩
         · simp [h1]
         · first
           | (rw [he]; exact hkeys r0 hr0)
           | (rcases upsert_cat_member _ _ _ _ _ hr0 with h2 | ⟨r1, hr1, he2⟩
              · rw [he, h2]; simp
              · rw [he, he2]; exact hkeys r1 hr1))

/-- C10 witness: the pizza default at a concrete unresolvable category. -/
theorem category_keys_closed_witness :
    category_key_for_item none = "pizza" :=
  (category_keys_closed none dbC10w 1 (by decide)).2.1

/-- C8 counterexample: requesting status `"delivered"` — a spelling the
normalization function maps to `"entregue"` — on an item whose status is
`"pendente"` (not `"pronto"`) is *not* rejected: the update succeeds and the
raw string `"delivered"` is stored as the item's status. -/
theorem delivered_spelling_bypasses_ready_check :
    map_incoming_status (some "delivered") = "entregue" ∧
    dbC8.items.map PedidoItem.status = ["pendente"] ∧
    update_order_item_quantity dbC8 1 10 ⟨none, none, some "delivered"⟩ = .ok dbC8' ∧
    dbC8'.items.map PedidoItem.status = ["delivered"] := by
  refine ⟨by decide, by decide, ?_, by decide⟩
  have e2 : is_finalized_status (some "pendente") = false := by decide
  have e5 : pyIntOr1 (1 : ℚ) = 1 := by norm_num [pyIntOr1, pyInt, qfloor]
  have e6 : item_is_ready (pyLower "delivered") = false := by decide
  have e8 : pyRound2 30 = 30 := by norm_num [pyRound2, roundHalfEven, qfloor]
  simp only [update_order_item_quantity, recompute_order_status_from_items,
    DB.setOrderStatus, DB.itemsOf, dbC8, dbC8', List.find?, List.filter, List.map,
    List.foldl, e2, e5, e6, e8]
  norm_num [e2, e5, e6, e8]
  intro hcontra
  exact absurd hcontra (by decide)

end Mimonb
